import Mathlib

/-!
Verification of the KnowledgeBase-Banana context-assembly pipeline.

Shallow embedding of:
- the chat request assembler and history management of
  src/services/geminiService.ts (GeminiService.sendMessage),
- the workshop request assembler, history management and response
  normalization of src/unnamed/part_006 (generateWorkshopImage,
  extractWorkshopEntities, generateWorkshopStoryboard),
- mention resolution and failure handling of
  src/components/ChatInterface.tsx (handleSendMessage, withLoading,
  handleGeneratePageImage, handleGenerateCharacterImage).

JavaScript strings are modelled as Lean String (with character lists where
substring reasoning is needed), JS Map dedup as an explicit insertion-order
fold, and asynchronous dispatch as explicit outcome values (Except).
-/

namespace KBB

/-- A payload segment, the tagged union of a text part and an inline-data
(image) part. The mime type is optional because upstream response parts may
omit it. -/
inductive Part where
  | text : String → Part
  | inlineData : Option String → String → Part
deriving DecidableEq, Repr

/-- JS truthiness of an optional string: undefined and the empty string are
falsy. -/
def truthy : Option String → Bool
  | none => false
  | some s => !(s == "")

/-- JS `haystack.includes(needle)` on character lists: some suffix of the
haystack starts with the needle. -/
def strIncludes (needle : List Char) : List Char → Bool
  | [] => needle.isEmpty
  | c :: t => needle.isPrefixOf (c :: t) || strIncludes needle t

/-- JS `haystack.includes(needle)` on strings. -/
def strIncludesStr (haystack needle : String) : Bool :=
  strIncludes needle.data haystack.data

/-- An entity of the knowledge catalog, as used by the chat pipeline:
id, mention name, optional mime type and optional base64 payload. -/
structure Entity where
  id : String
  name : String
  mimeType : Option String
  base64 : Option String
deriving DecidableEq, Repr

/-- A user attachment (already compressed image). -/
structure Attachment where
  mimeType : String
  base64 : String
deriving DecidableEq, Repr

/-- A scene (style) reference from the knowledge base. -/
structure SceneRef where
  id : String
  name : String
  base64 : Option String
  mimeType : String
deriving DecidableEq, Repr

/-- A workshop reference image argument of generateWorkshopImage:
`\x7b data: string; mimeType: string; name?: string \x7d`. -/
structure WorkshopRef where
  data : String
  mimeType : String
  name : Option String
deriving DecidableEq, Repr

/-! ## JS Map deduplication

`Array.from(new Map(pairs).values())` keeps, for every key, the position of
its first occurrence and the value of its last occurrence, in insertion
order. -/

/-- One `map.set` step of a JS Map represented as an insertion-ordered
association list: replace the value at an existing key, else append. -/
def jsUpsert {κ ν : Type} [DecidableEq κ] (acc : List (κ × ν)) (k : κ) (v : ν) :
    List (κ × ν) :=
  if acc.any (fun p => decide (p.1 = k)) then
    acc.map (fun p => if p.1 = k then (p.1, v) else p)
  else acc ++ [(k, v)]

/-- The entries of `new Map(l)` in insertion order. -/
def jsMapEntries {κ ν : Type} [DecidableEq κ] (l : List (κ × ν)) : List (κ × ν) :=
  l.foldl (fun acc p => jsUpsert acc p.1 p.2) []

/-- `Array.from(new Map(l).values())`. -/
def jsMapValues {κ ν : Type} [DecidableEq κ] (l : List (κ × ν)) : List ν :=
  (jsMapEntries l).map Prod.snd

/-- Index-value pairs of a list starting at a given index, mirroring the
index argument of a JS `Array.map` / `forEach` callback. -/
def idxPairs {α : Type} (n : Nat) : List α → List (Nat × α)
  | [] => []
  | a :: t => (n, a) :: idxPairs (n + 1) t

/-! ## Chat request assembler (src/services/geminiService.ts, lines 40-77) -/

/-- Start marker of the chat mention-injection section. -/
def chatInjStartHeader : String :=
  "--- Neural Knowledge Injection (Contextual References) ---\n"

/-- End marker of the chat mention-injection section. -/
def chatInjEndHeader : String := "--- End of Reference Injection ---\n"

/-- Labeled marker for a mentioned entity. -/
def visualRefLabel (name : String) : String :=
  "[Visual Reference: " ++ name ++ "]"

/-- Textual placeholder for a mentioned entity without image payload. -/
def offlineNote (name : String) : String :=
  "[Note: Visual data for " ++ name ++ " is currently offline.]"

/-- `Array.from(new Map(mentions.map(m => [m.id, m])).values())`. -/
def uniqueMentions (mentions : List Entity) : List Entity :=
  jsMapValues (mentions.map fun m => (m.id, m))

/-- The mention-injection section of a chat payload: emitted only when the
mention list is nonempty; a start marker, then per deduplicated mention a
label followed by its image (or an offline notice when the payload is
falsy), then an end marker. -/
def chatMentionParts (mentions : List Entity) : List Part :=
  if mentions.length > 0 then
    Part.text chatInjStartHeader ::
      ((uniqueMentions mentions).flatMap fun m =>
        Part.text (visualRefLabel m.name) ::
          (match m.base64 with
            | some d => if d == "" then [Part.text (offlineNote m.name)]
                        else [Part.inlineData m.mimeType d]
            | none => [Part.text (offlineNote m.name)]))
      ++ [Part.text chatInjEndHeader]
  else []

/-- The user attachments, each as an image segment, order preserved. -/
def attachmentParts (attachments : List Attachment) : List Part :=
  attachments.map fun a => Part.inlineData (some a.mimeType) a.base64

/-- JS whitespace characters relevant to `trim`. -/
def wsChar (c : Char) : Bool :=
  c == ' ' || c == '\t' || c == '\n' || c == '\r'

/-- The trailing user text segment, emitted when `text.trim()` is truthy:
the trimmed text is nonempty exactly when some character is not
whitespace, and the original (untrimmed) text is pushed. -/
def chatUserTextParts (text : String) : List Part :=
  if text.data.all wsChar then [] else [Part.text text]

/-- The assembled chat payload of GeminiService.sendMessage: mention
section, then attachments, then the user text. -/
def chatParts (text : String) (attachments : List Attachment)
    (mentions : List Entity) : List Part :=
  chatMentionParts mentions ++ attachmentParts attachments
    ++ chatUserTextParts text

/-! ## Workshop request assembler (src/unnamed/part_006, lines 204-251) -/

/-- Start marker of the style-reference section. -/
def styleStartHeader : String := "--- Style Reference (Global Visual Tone) ---"

/-- End marker of the style-reference section. -/
def styleEndHeader : String := "--- End of Style Reference ---"

/-- Start marker of the character-reference section. -/
def charStartHeader : String :=
  "--- Visual References (use these images as the definitive style + identity anchors) ---"

/-- End marker of the character-reference section. -/
def charEndHeader : String := "--- End of Visual References ---"

/-- Optional labeled-name suffix: the JS template emits `: name` only when
the name is truthy. -/
def refNameSuffix : Option String → String
  | some n => if n == "" then "" else ": " ++ n
  | none => ""

/-- Labeled marker of the idx-th (0-based) deduplicated style reference. -/
def styleRefLabel (idx : Nat) (r : WorkshopRef) : String :=
  "[Style Reference " ++ Nat.repr (idx + 1) ++ refNameSuffix r.name ++ "]"

/-- Labeled marker of the idx-th (0-based) deduplicated character
reference. -/
def charRefLabel (idx : Nat) (r : WorkshopRef) : String :=
  "[Character Reference " ++ Nat.repr (idx + 1) ++ refNameSuffix r.name ++ "]"

/-- The dedup key the code builds for a reference at a given original index:
the first 20 characters of the data, a dash, then the name when truthy, else
the index rendered as a decimal string. -/
def refKey (idx : Nat) (r : WorkshopRef) : List Char :=
  (r.data.data.take 20) ++ '-' ::
    (match r.name with
      | some n => if n == "" then (Nat.repr idx).data else n.data
      | none => (Nat.repr idx).data)

/-- `Array.from(new Map(styleRefs.map((ref, idx) => [key, ref])).values())`. -/
def uniqueWorkshopRefs (refs : List WorkshopRef) : List WorkshopRef :=
  jsMapValues ((idxPairs 0 refs).map fun p => (refKey p.1 p.2, p.2))

/-- `styleRefs.length > 0 && workshopHistory.length === 0`: style references
are injected only while the module-held workshop history is empty. -/
def shouldInjectStyleRefs (styleRefs : List WorkshopRef) (historyLen : Nat) :
    Bool :=
  decide (styleRefs.length > 0) && decide (historyLen = 0)

/-- The body of a style section over an already deduplicated list: per
reference a labeled marker followed by its image segment. -/
def styleItemParts (uniq : List WorkshopRef) : List Part :=
  (idxPairs 0 uniq).flatMap fun p =>
    [Part.text (styleRefLabel p.1 p.2), Part.inlineData (some p.2.mimeType) p.2.data]

/-- The style section of a workshop payload: when injection is on for this
turn, a start marker, the labeled reference images deduplicated by the code
key, then an end marker; otherwise nothing. -/
def workshopStyleParts (styleRefs : List WorkshopRef) (historyLen : Nat) :
    List Part :=
  if shouldInjectStyleRefs styleRefs historyLen then
    Part.text styleStartHeader :: styleItemParts (uniqueWorkshopRefs styleRefs)
      ++ [Part.text styleEndHeader]
  else []

/-- The character-reference section of a workshop payload: markers guarded
by nonemptiness of the raw list, items from the deduplicated list. -/
def workshopCharParts (charRefs : List WorkshopRef) : List Part :=
  (if charRefs.length > 0 then [Part.text charStartHeader] else []) ++
  ((idxPairs 0 (uniqueWorkshopRefs charRefs)).flatMap fun p =>
    [Part.text (charRefLabel p.1 p.2), Part.inlineData (some p.2.mimeType) p.2.data]) ++
  (if charRefs.length > 0 then [Part.text charEndHeader] else [])

/-- The final instruction segment of a workshop payload. -/
def renderInstruction (aspectRatio prompt : String) : String :=
  "Render a single " ++ aspectRatio ++ " frame. Scene prompt: " ++ prompt

/-- The assembled payload of generateWorkshopImage: optional style section,
character section, then the render instruction text. -/
def workshopParts (prompt : String) (charRefs styleRefs : List WorkshopRef)
    (aspectRatio : String) (historyLen : Nat) : List Part :=
  workshopStyleParts styleRefs historyLen ++ workshopCharParts charRefs
    ++ [Part.text (renderInstruction aspectRatio prompt)]

/-! ## Style-aware chat assembler

src/components/ChatInterface.tsx calls a six-argument
GeminiService.sendMessage taking scene references and an injection flag;
that revision of src/services/geminiService.ts is not under src/ (the file
present holds the earlier four-argument revision without style support). -/

/-- The spec dedup key of a style reference: content-prefix plus name
(concatenation of the first 20 data characters and the name). -/
def specStyleKey (r : WorkshopRef) : List Char :=
  (r.data.data.take 20) ++
    (match r.name with
      | some n => n.data
      | none => [])

/-- Modelled from the spec: the style-reference deduplication, keyed by
content-prefix plus name. -/
def specStyleDedup (refs : List WorkshopRef) : List WorkshopRef :=
  jsMapValues (refs.map fun r => (specStyleKey r, r))

/-- The workshop reference view of a scene reference, as built at the call
sites: `\x7b data: ref.base64, mimeType: ref.mimeType, name: ref.name \x7d`. -/
def sceneToWorkshopRef (s : SceneRef) : WorkshopRef :=
  { data := s.base64.getD "", mimeType := s.mimeType, name := some s.name }

/-- Modelled from the spec: the style section of the missing six-argument
chat sendMessage. If injectStyleRefsThisTurn is true and styleRefs is
nonempty, emit a section-start marker, then for each style reference
deduplicated by content-prefix plus name a labeled marker followed by its
image segment, then a section-end marker. -/
def chatStyleParts (sceneRefs : List SceneRef)
    (injectStyleRefsThisTurn : Bool) : List Part :=
  if injectStyleRefsThisTurn && decide (sceneRefs.length > 0) then
    Part.text styleStartHeader ::
      styleItemParts (specStyleDedup (sceneRefs.map sceneToWorkshopRef))
      ++ [Part.text styleEndHeader]
  else []

/-- Modelled from the spec: the full payload of the missing six-argument
chat sendMessage, a style section (at most once per conversation) followed
by the four-argument assembly of src/services/geminiService.ts. -/
def chatPartsFull (text : String) (attachments : List Attachment)
    (mentions : List Entity) (sceneRefs : List SceneRef)
    (injectStyleRefsThisTurn : Bool) : List Part :=
  chatStyleParts sceneRefs injectStyleRefsThisTurn
    ++ chatParts text attachments mentions

/-! ## Model responses and dispatch outcomes (section 6 transport shape) -/

/-- One history entry / returned content: optional role plus parts. -/
structure ContentMsg where
  role : Option String
  parts : List Part
deriving DecidableEq, Repr

/-- One response candidate. -/
structure Candidate where
  content : Option ContentMsg
deriving DecidableEq, Repr

/-- A raw model response: candidate list plus the textual diagnostic. -/
structure GenResponse where
  candidates : List Candidate
  text : Option String
deriving DecidableEq, Repr

/-- A thrown JS error object: optional message and optional numeric
status. -/
structure ErrObj where
  message : Option String
  status : Option Nat
deriving DecidableEq, Repr

/-- `response.candidates?.[0]?.content`. -/
def firstContent (r : GenResponse) : Option ContentMsg :=
  r.candidates.head?.bind fun c => c.content

/-- History growth of GeminiService.sendMessage (lines 86-93): after a
successful call whose response carries candidates[0].content, push the user
turn and the returned content; otherwise leave history unchanged. A
rejected call leaves history unchanged (the catch block only rethrows). -/
def chatDispatchHistory (hist : List ContentMsg) (parts : List Part)
    (res : Except ErrObj GenResponse) : List ContentMsg :=
  match res with
  | .error _ => hist
  | .ok r =>
    match firstContent r with
    | some content => hist ++ [{ role := some "user", parts := parts }, content]
    | none => hist

/-- History growth of generateWorkshopImage (part_006 lines 275-281),
structurally identical to the chat service but acting on the module-held
workshopHistory. -/
def workshopDispatchHistory (hist : List ContentMsg) (parts : List Part)
    (res : Except ErrObj GenResponse) : List ContentMsg :=
  match res with
  | .error _ => hist
  | .ok r =>
    match firstContent r with
    | some content => hist ++ [{ role := some "user", parts := parts }, content]
    | none => hist

/-- Normalization of one returned part (lines 100-113): a truthy text
becomes a text segment, inline data an image segment, anything else is
dropped. -/
def respPartNorm : Part → List Part
  | .text t => if t == "" then [] else [Part.text t]
  | .inlineData m d => [Part.inlineData m d]

/-- The normalized chat reply segments (lines 95-118): the parts of
candidates[0].content normalized, with a fallback to the raw textual
diagnostic when no segment was produced and the text is truthy. -/
def chatResponseParts (r : GenResponse) : List Part :=
  let fromContent :=
    match firstContent r with
    | some c => c.parts.flatMap respPartNorm
    | none => []
  if fromContent.isEmpty && truthy r.text then [Part.text (r.text.getD "")]
  else fromContent

/-- The geminiService catch block (lines 128-134): a message containing
"Requested entity was not found" or a 404 status. -/
def isAuthError (e : ErrObj) : Bool :=
  (match e.message with
    | some m => strIncludesStr m "Requested entity was not found"
    | none => false) || decide (e.status = some 404)

/-- The error the chat gateway rethrows: the invalid-credential signal for
404-equivalent failures, the original error otherwise. -/
def chatCatchMap (e : ErrObj) : ErrObj :=
  if isAuthError e then { message := some "API_KEY_INVALID", status := none }
  else e

/-- The full chat dispatch boundary: outcome seen by the caller plus the
conversation history after the call. -/
def chatDispatch (hist : List ContentMsg) (parts : List Part)
    (res : Except ErrObj GenResponse) :
    Except ErrObj (List Part) × List ContentMsg :=
  match res with
  | .error e => (.error (chatCatchMap e), hist)
  | .ok r => (.ok (chatResponseParts r), chatDispatchHistory hist parts res)

/-- First inline part of the returned content turned into a data url
(part_006 lines 283-292); the empty string when none exists. -/
def firstInlineUrl : List Part → String
  | [] => ""
  | .inlineData m d :: _ => "data:" ++ m.getD "image/png" ++ ";base64," ++ d
  | .text _ :: rest => firstInlineUrl rest

/-- The image url extracted from a workshop response. -/
def workshopImageUrl (r : GenResponse) : String :=
  match firstContent r with
  | some c => firstInlineUrl c.parts
  | none => ""

/-- Post-processing of a successful workshop call (lines 283-298): throw the
raw textual diagnostic when no image came back and the text is truthy,
otherwise return the image url (possibly empty). -/
def workshopResultStep (r : GenResponse) : Except String String :=
  if workshopImageUrl r == "" && truthy r.text then .error (r.text.getD "")
  else .ok (workshopImageUrl r)

/-- The full workshop dispatch boundary: outcome seen by the caller plus the
module-held workshop history after the call. History is pushed before the
no-image check runs, exactly as in the source. -/
def workshopDispatch (hist : List ContentMsg) (parts : List Part)
    (res : Except ErrObj GenResponse) :
    Except ErrObj String × List ContentMsg :=
  match res with
  | .error e => (.error e, hist)
  | .ok r =>
    (match workshopResultStep r with
      | .error t => .error { message := some t, status := none }
      | .ok u => .ok u,
     workshopDispatchHistory hist parts res)

/-! ## Mention resolution (src/components/ChatInterface.tsx line 51) -/

/-- `entities.filter(entity => text.includes(at + entity.name))`. -/
def resolveMentions (text : String) (catalog : List Entity) : List Entity :=
  catalog.filter fun e => strIncludesStr text ("@" ++ e.name)

/-! ## Workshop stage truncation budgets (part_006 lines 56 and 119) -/

/-- Character budget of the entity-extraction prompt:
`text.substring(0, 10000)`. -/
def extractionBudget : Nat := 10000

/-- Character budget of the storyboard prompt: `text.substring(0, 8000)`. -/
def storyboardBudget : Nat := 8000

/-- The novel text as embedded in the extractWorkshopEntities prompt. -/
def extractionSourceText (novel : List Char) : List Char :=
  novel.take extractionBudget

/-- The novel text as embedded in the generateWorkshopStoryboard prompt. -/
def storyboardSourceText (novel : List Char) : List Char :=
  novel.take storyboardBudget

/-! ## Caller-side failure handling -/

/-- A rendered chat message, reduced to its UI-relevant fields. -/
structure ChatMsg where
  parts : List Part
  isError : Bool
deriving DecidableEq, Repr

/-- The generic fallback turn appended by handleSendMessage on a
non-credential failure (ChatInterface.tsx lines 103-109). -/
def chatFallbackMsg : ChatMsg :=
  { parts := [Part.text "System overload. Failed to process neural request. Please verify connection."],
    isError := true }

/-- `error.message === "API_KEY_INVALID"` (ChatInterface.tsx line 99). -/
def chatFatal (e : ErrObj) : Bool := e.message == some "API_KEY_INVALID"

/-- The catch block of handleSendMessage: on the invalid-credential signal
call onError and append nothing; otherwise append the generic fallback
turn. Returns the message list after the branch and whether onError ran. -/
def chatHandleFailure (msgs : List ChatMsg) (e : ErrObj) :
    List ChatMsg × Bool :=
  if chatFatal e then (msgs, true) else (msgs ++ [chatFallbackMsg], false)

/-- The catch condition of the workshop withLoading helper
(ChatInterface.tsx line 701): force re-authentication exactly when the raw
error is 404-equivalent. -/
def workshopFatal (e : ErrObj) : Bool :=
  (match e.message with
    | some m => strIncludesStr m "Requested entity was not found"
    | none => false) || decide (e.status = some 404)

/-! ## Project-wide style-injection latch (claim C1)

State shared by the chat and workshop dispatch paths of one
conversation/project: the sceneRefsInjected latch owned by the App
component (modelled from the spec; the App revision holding it is not under
src/) and the length of the module-held workshopHistory. -/

/-- Latch and workshop-history length of one conversation/project. -/
structure ProjState where
  latch : Bool
  whl : Nat
deriving DecidableEq, Repr

/-- A fresh conversation/project: latch unset, empty workshop history. -/
def projInit : ProjState := { latch := false, whl := 0 }

/-- `isImageRequest && sceneReferences.length > 0 && !sceneRefsInjected`
(ChatInterface.tsx line 83). -/
def chatShouldInject (latch : Bool) (isImageRequest : Bool)
    (sceneRefs : List SceneRef) : Bool :=
  isImageRequest && decide (sceneRefs.length > 0) && !latch

/-- The styleRefs argument the workshop call sites pass: when the latch is
unset and scene references exist, the truthy-payload scene references;
otherwise the empty list (ChatInterface.tsx lines 827-831 and 918-922). -/
def workshopStyleArgs (latch : Bool) (sceneRefs : List SceneRef) :
    List WorkshopRef :=
  if !latch && decide (sceneRefs.length > 0) then
    (sceneRefs.filter fun r => truthy r.base64).map sceneToWorkshopRef
  else []

/-- One successful dispatch of a conversation/project: a chat sendMessage
call or a workshop generateWorkshopImage call. -/
inductive Ev where
  | chat (isImageRequest : Bool) (text : String) (attachments : List Attachment)
      (mentions : List Entity) (sceneRefs : List SceneRef) (hasContent : Bool)
  | workshop (prompt : String) (charRefs : List WorkshopRef)
      (sceneRefs : List SceneRef) (aspectRatio : String) (hasContent : Bool)

/-- The payload the event dispatches, assembled from the pre-dispatch
state. -/
def evPayload (s : ProjState) : Ev → List Part
  | .chat iI t atts ms refs _ =>
    chatPartsFull t atts ms refs (chatShouldInject s.latch iI refs)
  | .workshop p cr refs ar _ =>
    workshopParts p cr (workshopStyleArgs s.latch refs) ar s.whl

/-- The style-reference section of the payload the event dispatches. -/
def evStyleSegs (s : ProjState) : Ev → List Part
  | .chat iI _ _ _ refs _ => chatStyleParts refs (chatShouldInject s.latch iI refs)
  | .workshop _ _ refs _ _ => workshopStyleParts (workshopStyleArgs s.latch refs) s.whl

/-- The style-free remainder of the payload the event dispatches. -/
def evTailSegs (_ : ProjState) : Ev → List Part
  | .chat _ t atts ms _ _ => chatParts t atts ms
  | .workshop p cr _ ar _ =>
    workshopCharParts cr ++ [Part.text (renderInstruction ar p)]

/-- State transition on a successful dispatch: the chat path sets the latch
exactly when it injected this turn; the workshop path sets it whenever it
passed a nonempty styleRefs argument, and grows the workshop history by two
when the response carried content. -/
def evStep (s : ProjState) : Ev → ProjState
  | .chat iI _ _ _ refs _ =>
    { s with latch := s.latch || chatShouldInject s.latch iI refs }
  | .workshop _ _ refs _ hasContent =>
    { latch := s.latch || decide ((workshopStyleArgs s.latch refs).length > 0),
      whl := s.whl + (if hasContent then 2 else 0) }

/-- Whether the dispatched payload carries style-reference segments. -/
def carriesStyle (s : ProjState) (e : Ev) : Bool :=
  !(evStyleSegs s e).isEmpty

/-- Number of dispatched payloads carrying style-reference segments along a
run of successful dispatches. -/
def styleCount : ProjState → List Ev → Nat
  | _, [] => 0
  | s, e :: es => (if carriesStyle s e then 1 else 0) + styleCount (evStep s e) es

/-! ## Page-render staleness guard (claim C2)

ChatInterface.tsx lines 866-946: renderRequestIdRef maps each page number
to the token of the latest issued request; a resolving request commits its
result only when its token still matches. -/

/-- One committed page render. -/
structure PageRender where
  imageUrl : String
  lastUsedPrompt : String
deriving DecidableEq, Repr

/-- The cleared render stored the instant a regeneration is requested. -/
def pendingRender : PageRender :=
  { imageUrl := "", lastUsedPrompt := "正在生成新版本..." }

/-- Pointwise update of a map. -/
def updFn {κ ν : Type} [DecidableEq κ] (f : κ → ν) (k : κ) (v : ν) : κ → ν :=
  fun q => if q = k then v else f q

/-- Correlation tokens and committed renders per page. -/
structure RenderState where
  tokens : Nat → Option String
  renders : Nat → Option PageRender

/-- Issuing a render request for a page: record its token as the latest one
and clear the stored render (lines 868-876). -/
def issueRender (s : RenderState) (page : Nat) (requestId : String) :
    RenderState :=
  { tokens := updFn s.tokens page (some requestId),
    renders := updFn s.renders page (some pendingRender) }

/-- A request resolving with a result: committed only when its token still
matches the latest issued token for that page (lines 926-944). -/
def commitRender (s : RenderState) (page : Nat) (requestId : String)
    (result : PageRender) : RenderState :=
  if s.tokens page = some requestId then
    { s with renders := updFn s.renders page (some result) }
  else s

/-- Issue and resolve events of overlapping page renders, in the order the
event loop observes them. -/
inductive REv where
  | issue (page : Nat) (requestId : String)
  | resolve (page : Nat) (requestId : String) (result : PageRender)

/-- Running a sequence of render events. -/
def runRender (s : RenderState) : List REv → RenderState
  | [] => s
  | .issue p r :: es => runRender (issueRender s p r) es
  | .resolve p r v :: es => runRender (commitRender s p r v) es

/-! ## Supporting lemmas -/

/-- Two accumulators related pairwise with equal values have equal value
projections. -/
theorem map_snd_eq_of_forall₂ {κ₁ κ₂ ν : Type}
    {R : κ₁ × ν → κ₂ × ν → Prop} (hR : ∀ p q, R p q → p.2 = q.2)
    {acc₁ : List (κ₁ × ν)} {acc₂ : List (κ₂ × ν)}
    (h : List.Forall₂ R acc₁ acc₂) :
    acc₁.map Prod.snd = acc₂.map Prod.snd := by
  induction h with
  | nil => rfl
  | cons h₁ _ ih => simp only [List.map_cons, hR _ _ h₁, ih]

/-- Pairwise relatedness survives mapping both sides with functions that
preserve the relation. -/
theorem forall₂_map_congr {κ₁ κ₂ ν : Type}
    {R : κ₁ × ν → κ₂ × ν → Prop}
    {f : κ₁ × ν → κ₁ × ν} {g : κ₂ × ν → κ₂ × ν}
    (hfg : ∀ p q, R p q → R (f p) (g q))
    {acc₁ : List (κ₁ × ν)} {acc₂ : List (κ₂ × ν)}
    (h : List.Forall₂ R acc₁ acc₂) :
    List.Forall₂ R (acc₁.map f) (acc₂.map g) := by
  induction h with
  | nil => exact List.Forall₂.nil
  | cons h₁ _ ih => exact List.Forall₂.cons (hfg _ _ h₁) ih

/-- Core congruence of the JS-Map fold: folding the same elements with two
key functions that induce the same key-equality pattern yields the same
values, whatever the (pairwise related) starting accumulators. -/
theorem jsfold_values_congr {α κ₁ κ₂ ν : Type}
    [DecidableEq κ₁] [DecidableEq κ₂]
    (k₁ : α → κ₁) (k₂ : α → κ₂) (val : α → ν) (u : List α)
    (hequiv : ∀ a ∈ u, ∀ b ∈ u, (k₁ a = k₁ b ↔ k₂ a = k₂ b)) :
    ∀ (l : List α), (∀ a ∈ l, a ∈ u) →
    ∀ (acc₁ : List (κ₁ × ν)) (acc₂ : List (κ₂ × ν)),
      List.Forall₂
        (fun p q => p.2 = q.2 ∧ ∃ a ∈ u, p.1 = k₁ a ∧ q.1 = k₂ a) acc₁ acc₂ →
      (l.foldl (fun acc a => jsUpsert acc (k₁ a) (val a)) acc₁).map Prod.snd
        = (l.foldl (fun acc a => jsUpsert acc (k₂ a) (val a)) acc₂).map Prod.snd := by
  intro l
  induction l with
  | nil =>
    intro _ acc₁ acc₂ hrel
    exact map_snd_eq_of_forall₂ (fun p q hpq => hpq.1) hrel
  | cons b t ih =>
    intro hsub acc₁ acc₂ hrel
    have hbu : b ∈ u := hsub b (List.mem_cons_self b t)
    have hany : acc₁.any (fun p => decide (p.1 = k₁ b))
        = acc₂.any (fun p => decide (p.1 = k₂ b)) := by
      induction hrel with
      | nil => rfl
      | cons h₁ _ ih₂ =>
        obtain ⟨_, a, hau, hp1, hq1⟩ := h₁
        have hiff := hequiv a hau b hbu
        simp only [List.any_cons, ih₂, hp1, hq1]
        have : decide (k₁ a = k₁ b) = decide (k₂ a = k₂ b) :=
          decide_eq_decide.mpr hiff
        rw [this]
    simp only [List.foldl_cons]
    apply ih (fun a ha => hsub a (List.mem_cons_of_mem _ ha))
    unfold jsUpsert
    rw [hany]
    by_cases hc : acc₂.any (fun p => decide (p.1 = k₂ b)) = true
    · rw [if_pos hc, if_pos hc]
      refine forall₂_map_congr ?_ hrel
      rintro p q ⟨hsnd, a, hau, hp1, hq1⟩
      have hiff := hequiv a hau b hbu
      by_cases hpk : p.1 = k₁ b
      · have hqk : q.1 = k₂ b := by
          rw [hq1]; exact hiff.mp (hp1 ▸ hpk)
        rw [if_pos hpk, if_pos hqk]
        exact ⟨rfl, a, hau, hp1, hq1⟩
      · have hqk : ¬ q.1 = k₂ b := by
          intro hq
          exact hpk (hp1 ▸ (hiff.mpr (hq1 ▸ hq)))
        rw [if_neg hpk, if_neg hqk]
        exact ⟨hsnd, a, hau, hp1, hq1⟩
    · rw [if_neg hc, if_neg hc]
      exact List.rel_append hrel
        (List.Forall₂.cons ⟨rfl, b, hbu, rfl, rfl⟩ List.Forall₂.nil)

/-- Folding a mapped pair list is folding the base list with composed
keys. -/
theorem jsMapEntries_map {α κ ν : Type} [DecidableEq κ]
    (k : α → κ) (val : α → ν) (l : List α) :
    jsMapEntries (l.map fun a => (k a, val a))
      = l.foldl (fun acc a => jsUpsert acc (k a) (val a)) [] := by
  unfold jsMapEntries
  rw [List.foldl_map]

/-- Deduplicating by either of two key functions with the same key-equality
pattern yields the same values. -/
theorem jsMapValues_key_equiv {α κ₁ κ₂ ν : Type}
    [DecidableEq κ₁] [DecidableEq κ₂]
    (k₁ : α → κ₁) (k₂ : α → κ₂) (val : α → ν) (l : List α)
    (hequiv : ∀ a ∈ l, ∀ b ∈ l, (k₁ a = k₁ b ↔ k₂ a = k₂ b)) :
    jsMapValues (l.map fun a => (k₁ a, val a))
      = jsMapValues (l.map fun a => (k₂ a, val a)) := by
  unfold jsMapValues
  rw [jsMapEntries_map, jsMapEntries_map]
  exact jsfold_values_congr k₁ k₂ val l hequiv l (fun a ha => ha) [] []
    List.Forall₂.nil

/-- Mapping over index-value pairs while ignoring the index is mapping over
the underlying list. -/
theorem idxPairs_map_snd {α β : Type} (f : α → β) :
    ∀ (n : Nat) (l : List α), (idxPairs n l).map (fun p => f p.2) = l.map f := by
  intro n l
  induction l generalizing n with
  | nil => rfl
  | cons a t ih => simp [idxPairs, ih]

/-- The value component of an index-value pair is in the underlying list. -/
theorem idxPairs_mem_snd {α : Type} :
    ∀ {n : Nat} {l : List α} {p : Nat × α}, p ∈ idxPairs n l → p.2 ∈ l := by
  intro n l
  induction l generalizing n with
  | nil => intro p h; cases h
  | cons a t ih =>
    intro p h
    cases h with
    | head => exact List.mem_cons_self a t
    | tail _ h => exact List.mem_cons_of_mem a (ih h)

/-- A truthy optional name is some nonempty string. -/
theorem truthy_name_elim {o : Option String} (h : truthy o = true) :
    ∃ n, o = some n ∧ (n == "") = false := by
  cases o with
  | none => simp [truthy] at h
  | some n =>
    refine ⟨n, rfl, ?_⟩
    simpa [truthy] using h

/-- For references with truthy names and at least 20 data characters, the
code key (content prefix, dash, name) and the spec key (content prefix plus
name) induce the same equalities: the dash sits at a fixed offset, so both
keys separate the prefix and the name. -/
theorem refKey_equiv_specKey (i j : Nat) (r s : WorkshopRef)
    (hr : truthy r.name = true) (hs : truthy s.name = true)
    (hrl : 20 ≤ r.data.data.length) (hsl : 20 ≤ s.data.data.length) :
    (refKey i r = refKey j s) ↔ (specStyleKey r = specStyleKey s) := by
  obtain ⟨nr, hnr, hnre⟩ := truthy_name_elim hr
  obtain ⟨ns, hns, hnse⟩ := truthy_name_elim hs
  unfold refKey specStyleKey
  rw [hnr, hns]
  simp only [hnre, hnse, Bool.false_eq_true, if_false]
  have hlr : (r.data.data.take 20).length = 20 := by
    rw [List.length_take]; omega
  have hls : (s.data.data.take 20).length = 20 := by
    rw [List.length_take]; omega
  constructor
  · intro h
    obtain ⟨h₁, h₂⟩ := List.append_inj h (hlr.trans hls.symm)
    rw [h₁, List.cons.injEq] at *
    rw [h₂.2]
  · intro h
    obtain ⟨h₁, h₂⟩ := List.append_inj h (hlr.trans hls.symm)
    rw [h₁, h₂]

/-- Under truthy names and 20-character data payloads, the code
deduplication of generateWorkshopImage equals the spec deduplication keyed
by content-prefix plus name. -/
theorem uniqueWorkshopRefs_eq_spec (refs : List WorkshopRef)
    (h : ∀ r ∈ refs, truthy r.name = true ∧ 20 ≤ r.data.data.length) :
    uniqueWorkshopRefs refs = specStyleDedup refs := by
  unfold uniqueWorkshopRefs specStyleDedup
  have hmap : refs.map (fun r => (specStyleKey r, r))
      = (idxPairs 0 refs).map (fun p => (specStyleKey p.2, p.2)) :=
    (idxPairs_map_snd (fun r => (specStyleKey r, r)) 0 refs).symm
  rw [hmap]
  exact jsMapValues_key_equiv (fun p => refKey p.1 p.2)
    (fun p => specStyleKey p.2) (fun p => p.2) (idxPairs 0 refs)
    (fun p hp q hq => by
      obtain ⟨hpt, hpl⟩ := h p.2 (idxPairs_mem_snd hp)
      obtain ⟨hqt, hql⟩ := h q.2 (idxPairs_mem_snd hq)
      exact refKey_equiv_specKey p.1 q.1 p.2 q.2 hpt hqt hpl hql)

/-- The boolean substring test agrees with list-infix containment. -/
theorem strIncludes_iff_infix (n : List Char) :
    ∀ (h : List Char), strIncludes n h = true ↔ n <:+: h := by
  intro h
  induction h with
  | nil =>
    simp [strIncludes, List.isEmpty_iff]
  | cons c t ih =>
    simp only [strIncludes, Bool.or_eq_true, ih]
    rw [List.infix_cons_iff]
    constructor
    · rintro (hp | hi)
      · exact Or.inl (List.isPrefixOf_iff_prefix.mp hp)
      · exact Or.inr hi
    · rintro (hp | hi)
      · exact Or.inl (List.isPrefixOf_iff_prefix.mpr hp)
      · exact Or.inr hi

/-- The latch never resets along successful dispatches. -/
theorem evStep_latch_mono (s : ProjState) (e : Ev) (h : s.latch = true) :
    (evStep s e).latch = true := by
  cases e <;> simp [evStep, h]

/-- With the latch set, neither dispatch path attaches style segments. -/
theorem latched_no_style (s : ProjState) (e : Ev) (h : s.latch = true) :
    evStyleSegs s e = [] := by
  cases e with
  | chat iI t atts ms refs hc =>
    simp [evStyleSegs, chatStyleParts, chatShouldInject, h]
  | workshop p cr refs ar hc =>
    simp [evStyleSegs, workshopStyleArgs, h, workshopStyleParts,
      shouldInjectStyleRefs]

/-- A dispatch that attaches style segments leaves the latch set. -/
theorem carries_sets_latch (s : ProjState) (e : Ev)
    (h : carriesStyle s e = true) : (evStep s e).latch = true := by
  cases e with
  | chat iI t atts ms refs hc =>
    cases hf : chatShouldInject s.latch iI refs with
    | true => simp [evStep, hf]
    | false =>
      exfalso
      simp [carriesStyle, evStyleSegs, chatStyleParts, hf] at h
  | workshop p cr refs ar hc =>
    cases ha : decide ((workshopStyleArgs s.latch refs).length > 0) with
    | true => simp [evStep, ha]
    | false =>
      exfalso
      have hargs : workshopStyleArgs s.latch refs = [] := by
        have := of_decide_eq_false ha
        exact List.eq_nil_of_length_eq_zero (by omega)
      simp [carriesStyle, evStyleSegs, hargs, workshopStyleParts,
        shouldInjectStyleRefs] at h

/-- With the latch set, no later dispatch in the run attaches style
segments. -/
theorem styleCount_latched (s : ProjState) (evts : List Ev)
    (h : s.latch = true) : styleCount s evts = 0 := by
  induction evts generalizing s with
  | nil => rfl
  | cons e es ih =>
    simp [styleCount, carriesStyle, latched_no_style s e h,
      ih (evStep s e) (evStep_latch_mono s e h)]

/-- Along any run of successful dispatches, at most one payload carries
style segments. -/
theorem styleCount_le_one (s : ProjState) (evts : List Ev) :
    styleCount s evts ≤ 1 := by
  induction evts generalizing s with
  | nil => simp [styleCount]
  | cons e es ih =>
    cases hc : carriesStyle s e with
    | false => simpa [styleCount, hc] using ih (evStep s e)
    | true =>
      simp [styleCount, hc,
        styleCount_latched (evStep s e) es (carries_sets_latch s e hc)]

/-! ## Claim theorems -/

/-- C1. Single-use style-injection latch: along every run of successful
dispatches of one conversation/project (chat sendMessage calls or workshop
generateWorkshopImage calls), at most one dispatched payload carries
style-reference segments; every payload decomposes into its style section
followed by a style-free tail; a dispatch that attached style segments
leaves the latch set; the latch is never reset; and once the latch is set
no later payload carries style segments. -/
theorem c1_single_use_style_latch :
    (∀ (s : ProjState) (evts : List Ev), styleCount s evts ≤ 1) ∧
    (∀ (s : ProjState) (e : Ev),
      evPayload s e = evStyleSegs s e ++ evTailSegs s e) ∧
    (∀ (s : ProjState) (e : Ev),
      carriesStyle s e = true → (evStep s e).latch = true) ∧
    (∀ (s : ProjState) (e : Ev),
      s.latch = true → (evStep s e).latch = true) ∧
    (∀ (s : ProjState) (evts : List Ev),
      s.latch = true → styleCount s evts = 0) := by
  refine ⟨styleCount_le_one, ?_, carries_sets_latch, evStep_latch_mono,
    styleCount_latched⟩
  intro s e
  cases e with
  | chat iI t atts ms refs hc => rfl
  | workshop p cr refs ar hc =>
    simp [evPayload, evStyleSegs, evTailSegs, workshopParts,
      List.append_assoc]

/-- A concrete scene reference with a 22-character payload. -/
def sceneS : SceneRef :=
  { id := "s1", name := "S", base64 := some "SDATA-0123456789ABCDE",
    mimeType := "image/png" }

/-- Witness for C1 at concrete inputs: a latched project dispatching one
workshop call carries no style segments. -/
theorem c1_single_use_style_latch_witness :
    styleCount { latch := true, whl := 0 }
      [Ev.workshop "p" [] [sceneS] "16:9" true] = 0 :=
  c1_single_use_style_latch.2.2.2.2 { latch := true, whl := 0 } _ rfl

/-- C2. Page-render staleness guard, last-requested-wins: when R1 then R2
are issued for the same page and R1 resolves after R2 did, the committed
render for that page is the result of R2; the late R1 result is discarded
because its correlation token no longer matches the latest issued token for
that page. -/
theorem c2_page_render_staleness
    (s : RenderState) (p : Nat) (r1 r2 : String) (v1 v2 : PageRender)
    (hne : r1 ≠ r2) :
    (runRender s [.issue p r1, .issue p r2, .resolve p r2 v2,
      .resolve p r1 v1]).renders p = some v2 ∧
    (runRender s [.issue p r1, .issue p r2, .resolve p r2 v2,
      .resolve p r1 v1]).tokens p = some r2 := by
  have hne2 : r2 ≠ r1 := fun h => hne h.symm
  simp [runRender, issueRender, commitRender, updFn, hne2]

/-- Witness for C2 at concrete inputs: page 3, tokens "r1" and "r2". -/
theorem c2_page_render_staleness_witness :
    (runRender { tokens := fun _ => none, renders := fun _ => none }
      [.issue 3 "r1", .issue 3 "r2",
       .resolve 3 "r2" { imageUrl := "img2", lastUsedPrompt := "p2" },
       .resolve 3 "r1" { imageUrl := "img1", lastUsedPrompt := "p1" }]).renders 3
      = some { imageUrl := "img2", lastUsedPrompt := "p2" } ∧
    (runRender { tokens := fun _ => none, renders := fun _ => none }
      [.issue 3 "r1", .issue 3 "r2",
       .resolve 3 "r2" { imageUrl := "img2", lastUsedPrompt := "p2" },
       .resolve 3 "r1" { imageUrl := "img1", lastUsedPrompt := "p1" }]).tokens 3
      = some "r2" :=
  c2_page_render_staleness _ 3 "r1" "r2" _ _ (by decide)

/-- A model reply carrying text but no image. -/
def textOnlyContent : ContentMsg :=
  { role := some "model", parts := [Part.text "no image"] }

/-- A response whose candidate content has text parts only, with the
textual diagnostic mirroring them. -/
def textOnlyResp : GenResponse :=
  { candidates := [{ content := some textOnlyContent }], text := some "no image" }

/-- C3 counterexample: a workshop dispatch that fails (the returned outcome
is an error, thrown by the no-image check) after which the module-held
history nevertheless grew from 0 to 2 entries, because generateWorkshopImage
pushes the user/model pair before checking for an image. -/
theorem c3_failed_dispatch_grows_history :
    (workshopDispatch [] [Part.text "p"] (.ok textOnlyResp)).1
      = Except.error { message := some "no image", status := none } ∧
    ((workshopDispatch [] [Part.text "p"] (.ok textOnlyResp)).2).length = 2 :=
  ⟨rfl, rfl⟩

/-- C3 amended: a dispatch rejected by the transport leaves both histories
unchanged, and histories only ever grow by a strict user-turn/model-turn
pair whose model turn is the successful replies content; however a workshop
dispatch may fail after the model call succeeded (text but no image), in
which case the pair has already been appended. -/
theorem c3_history_atomicity
    (hist : List ContentMsg) (parts : List Part) (e : ErrObj)
    (r : GenResponse) :
    chatDispatchHistory hist parts (.error e) = hist ∧
    workshopDispatchHistory hist parts (.error e) = hist ∧
    (chatDispatch hist parts (.ok r)).1 = Except.ok (chatResponseParts r) ∧
    (chatDispatchHistory hist parts (.ok r) = hist ∨
      ∃ c, firstContent r = some c ∧
        chatDispatchHistory hist parts (.ok r)
          = hist ++ [{ role := some "user", parts := parts }, c]) ∧
    (workshopDispatchHistory hist parts (.ok r) = hist ∨
      ∃ c, firstContent r = some c ∧
        workshopDispatchHistory hist parts (.ok r)
          = hist ++ [{ role := some "user", parts := parts }, c]) := by
  refine ⟨rfl, rfl, rfl, ?_, ?_⟩ <;>
    cases hfc : firstContent r with
    | none =>
      exact Or.inl (by simp [chatDispatchHistory, workshopDispatchHistory, hfc])
    | some c =>
      exact Or.inr ⟨c, rfl,
        by simp [chatDispatchHistory, workshopDispatchHistory, hfc]⟩

/-- C6 counterexample: a response with no image segment and no text makes
generateWorkshopImage return an empty-string image url (a placeholder
result) and makes the chat service return a message with no parts; neither
gateway raises a distinguished empty-response error. -/
theorem c6_empty_response_not_raised :
    workshopResultStep { candidates := [], text := none } = Except.ok "" ∧
    chatResponseParts { candidates := [], text := none } = [] :=
  ⟨rfl, rfl⟩

/-- C6 amended: when the workshop response carries no image, the gateway
raises an error carrying the raw textual diagnostic exactly when the text
is truthy; with neither image nor text it returns an empty image url
without raising, and the chat gateway always returns a normal result for a
delivered response. -/
theorem c6_no_image_semantics (r : GenResponse)
    (h : workshopImageUrl r = "") :
    (truthy r.text = true →
      workshopResultStep r = Except.error (r.text.getD "")) ∧
    (truthy r.text = false → workshopResultStep r = Except.ok "") ∧
    (∀ (hist : List ContentMsg) (parts : List Part),
      (chatDispatch hist parts (.ok r)).1
        = Except.ok (chatResponseParts r)) := by
  refine ⟨?_, ?_, fun hist parts => rfl⟩ <;>
    intro ht <;> simp [workshopResultStep, h, ht]

/-- Witness for C6 amended at a concrete input: no candidates, a textual
diagnostic "diag". -/
theorem c6_no_image_semantics_witness :
    workshopResultStep { candidates := [], text := some "diag" }
      = Except.error "diag" :=
  (c6_no_image_semantics { candidates := [], text := some "diag" }
    (by decide)).1 (by decide)

/-- C4. Style-section emission: with injection enabled for this turn
(nonempty styleRefs, empty workshop history) and references carrying truthy
names and at least 20 data characters, the assembled workshop payload is
the style section — start marker, then per style reference deduplicated by
content-prefix plus name a labeled marker followed by its image segment,
then the end marker — followed by the payload assembled without style
references. -/
theorem c4_style_section_emission
    (prompt : String) (charRefs styleRefs : List WorkshopRef) (ar : String)
    (hne : styleRefs ≠ [])
    (hwf : ∀ r ∈ styleRefs, truthy r.name = true ∧ 20 ≤ r.data.data.length) :
    workshopParts prompt charRefs styleRefs ar 0 =
      (Part.text styleStartHeader ::
        styleItemParts (specStyleDedup styleRefs)
        ++ [Part.text styleEndHeader])
      ++ workshopParts prompt charRefs [] ar 0 := by
  have hlen : styleRefs.length > 0 := List.length_pos.mpr hne
  unfold workshopParts workshopStyleParts shouldInjectStyleRefs
  simp [hlen, uniqueWorkshopRefs_eq_spec styleRefs hwf, List.append_assoc]

/-- A concrete workshop style reference with a 21-character payload. -/
def wsRefS : WorkshopRef :=
  { data := "SDATA-0123456789ABCDE", mimeType := "image/png",
    name := some "S" }

/-- Witness for C4 at concrete inputs: one named style reference and no
character references. -/
theorem c4_style_section_emission_witness :
    ([wsRefS] : List WorkshopRef) ≠ [] ∧
    workshopParts "p" [] [wsRefS] "16:9" 0 =
      (Part.text styleStartHeader ::
        styleItemParts (specStyleDedup [wsRefS])
        ++ [Part.text styleEndHeader])
      ++ workshopParts "p" [] [] "16:9" 0 :=
  ⟨by decide,
    c4_style_section_emission "p" [] [wsRefS] "16:9" (by decide) (by decide)⟩

/-- A concrete mentioned entity. -/
def entityM : Entity :=
  { id := "m1", name := "M", mimeType := some "image/png",
    base64 := some "MDATA" }

/-- A concrete user attachment. -/
def attachA : Attachment := { mimeType := "image/jpeg", base64 := "ADATA" }

/-- C5 counterexample: assembling styleRefs `[S]`, mentions `[M]`,
attachments `[A]`, text "hi" with injection enabled does not yield the
claimed eight-segment order, because the per-mention references are
additionally wrapped in their own section start and end markers. -/
theorem c5_fixed_order_counterexample :
    chatPartsFull "hi" [attachA] [entityM] [sceneS] true ≠
      [Part.text styleStartHeader,
       Part.text "[Style Reference 1: S]",
       Part.inlineData (some "image/png") "SDATA-0123456789ABCDE",
       Part.text styleEndHeader,
       Part.text "[Visual Reference: M]",
       Part.inlineData (some "image/png") "MDATA",
       Part.inlineData (some "image/jpeg") "ADATA",
       Part.text "hi"] := by
  decide

/-- C5 amended: the same assembly yields the style section, then the
mention section wrapped in its own start and end markers, then the
attachment, then the user text. -/
theorem c5_fixed_order :
    chatPartsFull "hi" [attachA] [entityM] [sceneS] true =
      [Part.text styleStartHeader,
       Part.text "[Style Reference 1: S]",
       Part.inlineData (some "image/png") "SDATA-0123456789ABCDE",
       Part.text styleEndHeader,
       Part.text chatInjStartHeader,
       Part.text "[Visual Reference: M]",
       Part.inlineData (some "image/png") "MDATA",
       Part.text chatInjEndHeader,
       Part.inlineData (some "image/jpeg") "ADATA",
       Part.text "hi"] := by
  decide

/-- A catalog entity whose name is a proper prefix of another one. -/
def hanE : Entity :=
  { id := "e1", name := "Han", mimeType := some "image/png",
    base64 := some "HDATA" }

/-- A catalog entity with the longer name. -/
def hanLiE : Entity :=
  { id := "e2", name := "HanLi", mimeType := some "image/png",
    base64 := some "HLDATA" }

/-- C7 counterexample: on the text "draw @HanLi in a garden" both Han and
HanLi match (the mention of Han starts at the same offset inside @HanLi),
and resolveMentions returns both — the shorter prefixed entity is not
shadowed. -/
theorem c7_no_positional_shadowing :
    resolveMentions "draw @HanLi in a garden" [hanE, hanLiE]
      = [hanE, hanLiE] := by
  decide

/-- C7 amended: resolveMentions returns exactly the catalog entities whose
literal substring at-name occurs in the text (case-sensitive, no word
boundary, in catalog order); there is no shadowing of shorter names by
longer ones. -/
theorem c7_resolve_mentions_characterization
    (text : String) (catalog : List Entity) (e : Entity) :
    e ∈ resolveMentions text catalog ↔
      e ∈ catalog ∧ ('@' :: e.name.data) <:+: text.data := by
  unfold resolveMentions
  rw [List.mem_filter]
  apply and_congr_right
  intro _
  unfold strIncludesStr
  rw [String.data_append]
  exact strIncludes_iff_infix _ _

/-- C8 counterexample: an underlying failure that is not 404-equivalent but
whose message is literally "API_KEY_INVALID" passes through the gateway
unmapped and is still treated as fatal by the chat caller — the
fatal-to-session treatment is not exactly the 404-equivalent condition. -/
theorem c8_inband_collision :
    isAuthError { message := some "API_KEY_INVALID", status := none } = false ∧
    (chatHandleFailure []
      (chatCatchMap { message := some "API_KEY_INVALID", status := none })).2
      = true := by
  decide

/-- C8 amended: the gateway maps a failure to the distinguished
invalid-credential error exactly on the 404-equivalent condition; the chat
caller treats a failure as fatal iff it is 404-equivalent or its raw
message is already the in-band "API_KEY_INVALID" string, appends the
generic retryable fallback turn otherwise and appends nothing when fatal;
the workshop caller tests the 404-equivalent condition itself. -/
theorem c8_invalid_credential_taxonomy (e : ErrObj) (msgs : List ChatMsg) :
    (chatHandleFailure msgs (chatCatchMap e)).2
      = (isAuthError e || e.message == some "API_KEY_INVALID") ∧
    workshopFatal e = isAuthError e ∧
    ((chatHandleFailure msgs (chatCatchMap e)).2 = false →
      (chatHandleFailure msgs (chatCatchMap e)).1 = msgs ++ [chatFallbackMsg]) ∧
    ((chatHandleFailure msgs (chatCatchMap e)).2 = true →
      (chatHandleFailure msgs (chatCatchMap e)).1 = msgs) := by
  refine ⟨?_, rfl, ?_, ?_⟩
  · unfold chatHandleFailure chatCatchMap chatFatal
    cases h : isAuthError e with
    | true => simp
    | false =>
      by_cases hm : e.message = some "API_KEY_INVALID"
      · simp [hm]
      · simp [hm]
  · intro h
    by_cases hf : chatFatal (chatCatchMap e) = true
    · exfalso; simp [chatHandleFailure, hf] at h
    · simp [chatHandleFailure, hf]
  · intro h
    by_cases hf : chatFatal (chatCatchMap e) = true
    · simp [chatHandleFailure, hf]
    · exfalso; simp [chatHandleFailure, hf] at h

/-- Witness for C8 amended at a concrete input: a generic 500-class failure
appends the fallback turn. -/
theorem c8_invalid_credential_taxonomy_witness :
    (chatHandleFailure []
      (chatCatchMap { message := some "boom", status := some 500 })).1
      = [] ++ [chatFallbackMsg] :=
  (c8_invalid_credential_taxonomy
    { message := some "boom", status := some 500 } []).2.2.1 (by decide)

/-- C9 counterexample: on a 10000-character novel text, the storyboard
stage embeds strictly fewer characters than the extraction stage — the
storyboard budget (8000) is smaller, not larger, than the extraction
budget (10000). -/
theorem c9_storyboard_budget_smaller :
    (storyboardSourceText (List.replicate 10000 'x')).length
      < (extractionSourceText (List.replicate 10000 'x')).length ∧
    storyboardBudget < extractionBudget := by
  constructor
  · unfold storyboardSourceText extractionSourceText storyboardBudget
      extractionBudget
    rw [List.length_take, List.length_take, List.length_replicate]
    omega
  · norm_num [storyboardBudget, extractionBudget]

/-- C9 amended: both stages truncate to fixed character budgets; the
budgets differ, the storyboard one being the smaller (8000 versus 10000). -/
theorem c9_truncation_budgets (t : List Char) :
    (extractionSourceText t).length = min extractionBudget t.length ∧
    (storyboardSourceText t).length = min storyboardBudget t.length ∧
    storyboardBudget < extractionBudget ∧
    storyboardBudget ≠ extractionBudget := by
  refine ⟨?_, ?_, ?_, ?_⟩
  · simp [extractionSourceText, List.length_take]
  · simp [storyboardSourceText, List.length_take]
  · norm_num [storyboardBudget, extractionBudget]
  · norm_num [storyboardBudget, extractionBudget]

/-- C10. Every dispatch changes the module-held history length by exactly
0 or 2, and a dispatch whose delivered response lacks candidates[0].content
still returns a normal result to the caller while appending neither the
user turn nor a model turn. -/
theorem c10_dispatch_history_delta
    (hist : List ContentMsg) (parts : List Part)
    (res : Except ErrObj GenResponse) :
    ((chatDispatchHistory hist parts res).length = hist.length ∨
      (chatDispatchHistory hist parts res).length = hist.length + 2) ∧
    ((workshopDispatchHistory hist parts res).length = hist.length ∨
      (workshopDispatchHistory hist parts res).length = hist.length + 2) ∧
    (∀ r, res = .ok r → firstContent r = none →
      chatDispatch hist parts res = (Except.ok (chatResponseParts r), hist) ∧
      workshopDispatchHistory hist parts res = hist) := by
  refine ⟨?_, ?_, ?_⟩
  · cases res with
    | error e => exact Or.inl rfl
    | ok r =>
      cases hfc : firstContent r with
      | none => exact Or.inl (by simp [chatDispatchHistory, hfc])
      | some c => exact Or.inr (by simp [chatDispatchHistory, hfc])
  · cases res with
    | error e => exact Or.inl rfl
    | ok r =>
      cases hfc : firstContent r with
      | none => exact Or.inl (by simp [workshopDispatchHistory, hfc])
      | some c => exact Or.inr (by simp [workshopDispatchHistory, hfc])
  · rintro r rfl hfc
    exact ⟨by simp [chatDispatch, chatDispatchHistory, hfc],
      by simp [workshopDispatchHistory, hfc]⟩

/-- Witness for C10 at a concrete input: a response with no candidates and
a textual fallback returns a text-only message and leaves both histories
untouched. -/
theorem c10_dispatch_history_delta_witness :
    chatDispatch [] [] (Except.ok { candidates := [], text := some "t" })
      = (Except.ok [Part.text "t"], []) ∧
    workshopDispatchHistory [] []
      (Except.ok { candidates := [], text := some "t" }) = [] :=
  (c10_dispatch_history_delta [] [] (Except.ok
    { candidates := [], text := some "t" })).2.2 _ rfl rfl

end KBB
